import Mathlib

/-!
Verification development for the alarmdecoder-modernized protocol decoder.

The definitions below are a shallow embedding of the Python sources:
  alarmdecoder/messages/parser.py
  alarmdecoder/messages/base_message.py, panel_message.py, expander_message.py,
  rf_message.py, aui_message.py
  alarmdecoder/status/updater.py
  alarmdecoder/decoder.py (AlarmDecoder._handle_message and helpers)

Python strings are modelled as Lean strings; character-level operations work on
String.data (List Char).  Python None is modelled with Option.  Exceptions are
modelled with Except: every decode failure escaping a parse function is an
InvalidMessageError, because each parser wraps any other exception into
InvalidMessageError before re-raising (parser.py, the except blocks); the
error message strings carried here are short constants, not the exact Python
f-strings, since nothing observes their text.  Event firings (device.on_x.fire)
are modelled as a list of emissions; the Event class itself (module
alarmdecoder.event.event) is absent from the sources, so per the spec (section
4.4) a fire is recorded as one synchronous emission and subscriber-side
behaviour is outside the model.
-/

/-- Python exception InvalidMessageError (util/exceptions.py). -/
structure InvalidMessageError where
  msg : String
deriving DecidableEq

/-- Python AttributeError, raised when an attribute lookup fails. -/
structure AttributeErr where
  attr : String
deriving DecidableEq

deriving instance DecidableEq for Except

/-- Characters treated as whitespace by str.strip(). -/
def isSpaceChar (c : Char) : Bool :=
  c = ' ' || c = '\t' || c = '\n' || c = '\r' || c = '\x0b' || c = '\x0c'

/-- Python str.strip(): drop whitespace from both ends. -/
def pyStrip (s : List Char) : List Char :=
  ((s.dropWhile isSpaceChar).reverse.dropWhile isSpaceChar).reverse

/-- Python "pat in text" for strings: pat starts the list here. -/
def listStartsWith : List Char → List Char → Bool
  | [], _ => true
  | _ :: _, [] => false
  | p :: ps, c :: cs => p = c && listStartsWith ps cs

/-- Python substring membership "pat in text". -/
def pyIn (pat : List Char) (text : List Char) : Bool :=
  if listStartsWith pat text then true
  else
    match text with
    | [] => false
    | _ :: rest => pyIn pat rest

/-- Python str.startswith(pat). -/
def pyStartsWith (pat : String) (s : String) : Bool :=
  listStartsWith pat.data s.data

/-- Python truthiness of a string: nonempty. -/
def pyTruthyStr (s : String) : Bool :=
  ! s.data.isEmpty

/-- Python str.split(sep) for a one-character separator, no maxsplit. -/
def splitOnChar (sep : Char) : List Char → List (List Char)
  | [] => [[]]
  | c :: rest =>
    match splitOnChar sep rest with
    | [] => [[c]]
    | g :: gs => if c = sep then [] :: g :: gs else (c :: g) :: gs

/-- Helper for maxsplit: split off everything before the first separator. -/
def splitFirst (sep : Char) : List Char → Option (List Char × List Char)
  | [] => none
  | c :: rest =>
    if c = sep then some ([], rest)
    else
      match splitFirst sep rest with
      | none => none
      | some (a, b) => some (c :: a, b)

/-- Python str.split(sep, maxsplit). -/
def splitOnCharMax (sep : Char) (maxsplit : Nat) (s : List Char) : List (List Char) :=
  match maxsplit with
  | 0 => [s]
  | n + 1 =>
    match splitFirst sep s with
    | none => [s]
    | some (a, b) => a :: splitOnCharMax sep n b

/-- Decimal digit test. -/
def isDigitChar (c : Char) : Bool :=
  48 ≤ c.toNat && c.toNat ≤ 57

/-- Hexadecimal digit value, if any. -/
def hexVal (c : Char) : Option Nat :=
  if 48 ≤ c.toNat && c.toNat ≤ 57 then some (c.toNat - 48)
  else if 97 ≤ c.toNat && c.toNat ≤ 102 then some (c.toNat - 87)
  else if 65 ≤ c.toNat && c.toNat ≤ 70 then some (c.toNat - 55)
  else none

/-- Python int(s) on the unsigned decimal literals that occur on this wire
(digit-only strings); anything else is a ValueError (none). -/
def pyIntDec (s : List Char) : Option Nat :=
  if s ≠ [] && s.all isDigitChar then
    some (s.foldl (fun acc c => acc * 10 + (c.toNat - 48)) 0)
  else none

/-- Python int(s, 16) on the unsigned hex literals that occur on this wire. -/
def pyIntHex (s : List Char) : Option Nat :=
  if s ≠ [] && s.all (fun c => (hexVal c).isSome) then
    some (s.foldl (fun acc c => acc * 16 + ((hexVal c).getD 0)) 0)
  else none

/-- Python str.lower(). -/
def pyLower (s : List Char) : List Char :=
  s.map Char.toLower

/-- The truthy strings accepted by parse_rf for battery/supervision. -/
def rfTruthyStrings : List (List Char) :=
  ["true".data, "yes".data, "1".data, "on".data, "t".data, "y".data]

/-- parse_rf: battery.lower() in ('true','yes','1','on','t','y'). -/
def pyBoolFromStr (s : List Char) : Bool :=
  rfTruthyStrings.contains (pyLower s)

/-- BaseMessage (messages/base_message.py): a dataclass whose class body
defines defaults raw=None and timestamp=None.  The timestamp type never
matters (no code path constructs one), so it is modelled as Nat. -/
structure BaseMessage where
  raw : Option String
  timestamp : Option Nat
deriving DecidableEq

/-- BaseMessage.__init__(self, data=None): its body is pass, so the data
argument is discarded; attribute reads fall back to the class-level dataclass
defaults raw=None, timestamp=None. -/
def baseMessage_init (_data : Option String) : BaseMessage :=
  { raw := none, timestamp := none }

/-- Attribute lookup msg.mask on a BaseMessage: the class declares only raw
and timestamp, so the lookup raises AttributeError (decoder.py line 426 reads
it on the BaseMessage built in _handle_keypad_message). -/
def baseMessage_mask (_m : BaseMessage) : Except AttributeErr Nat :=
  .error { attr := "mask" }

/-- PanelMessage (messages/panel_message.py). -/
structure PanelMessage where
  raw : Option String
  timestamp : Option Nat
  text : Option String
  alarm_event_occurred : Bool
  alarm_sounding : Bool
  ready : Bool
  armed_away : Bool
  armed_home : Bool
  chime_on : Bool
  bypass : Bool
  ac_power : Bool
  battery_low : Bool
  fire_alarm : Bool
  check_zone : Bool
  programming_mode : Bool
  system_fault : Bool
  zone_bypassed : Bool
  numeric_code : Option String
  mask : Option String
  beeps : Option Nat
  cursor_location : Option Nat
  panel_type : Option String
deriving DecidableEq

/-- ExpanderMessage (messages/expander_message.py).  Python ints on this path
are unsigned, modelled as Nat. -/
structure ExpanderMessage where
  raw : Option String
  timestamp : Option Nat
  address : Option Nat
  type : Option Nat
  channel : Option Nat
  value : Option Nat
deriving DecidableEq

/-- ExpanderMessage.ZONE. -/
def ExpanderMessage.ZONE : Nat := 0

/-- ExpanderMessage.RELAY. -/
def ExpanderMessage.RELAY : Nat := 1

/-- RFMessage (messages/rf_message.py). -/
structure RFMessage where
  raw : Option String
  timestamp : Option Nat
  serial_number : Option String
  value : Option Nat
  battery : Option Bool
  supervision : Option Bool
  loop : List Bool
deriving DecidableEq

/-- LRRMessage (messages/panel_message.py). -/
structure LRRMessage where
  raw : Option String
  timestamp : Option Nat
  event_type : Option String
  partition : Option String
deriving DecidableEq

/-- AdemcoCIDEvent (messages/panel_message.py). -/
structure AdemcoCIDEvent where
  code : String
  qualifier : String
  group : String
  zone : String
  partition : String
deriving DecidableEq

/-- ADEMCOContactID (messages/panel_message.py), an LRRMessage subclass,
flattened. -/
structure ADEMCOContactID where
  raw : Option String
  timestamp : Option Nat
  event_type : Option String
  partition : Option String
  event : Option AdemcoCIDEvent
deriving DecidableEq

/-- AUIMessage (messages/aui_message.py). -/
structure AUIMessage where
  raw : Option String
  timestamp : Option Nat
  value : Option String
  aui_id : Option String
  msg_type : Option String
  line : Option String
  text : Option String
deriving DecidableEq

/-- The closed variant set of decoded messages produced by parse_message. -/
inductive Message where
  | panel (m : PanelMessage)
  | expander (m : ExpanderMessage)
  | rf (m : RFMessage)
  | lrr (m : LRRMessage)
  | cid (m : ADEMCOContactID)
  | aui (m : AUIMessage)
deriving DecidableEq

/-- parse_panel (parser.py lines 51-76): strip the leading '!' and derive
every boolean field by substring membership in the remaining text; ac_power
defaults true unless "AC LOSS" is present.  The body cannot raise. -/
def parse_panel (data : String) : Except InvalidMessageError PanelMessage :=
  let text := (pyStrip data.data).drop 1
  .ok { raw := some data
        timestamp := none
        text := some ⟨text⟩
        alarm_event_occurred := pyIn "ALARM".data text
        alarm_sounding := pyIn "SOUND".data text
        ready := pyIn "READY".data text
        armed_away := pyIn "AWAY".data text
        armed_home := pyIn "STAY".data text
        chime_on := pyIn "CHIME".data text
        bypass := pyIn "BYPASS".data text
        ac_power := ! pyIn "AC LOSS".data text
        battery_low := pyIn "BAT".data text
        fire_alarm := pyIn "FIRE".data text
        check_zone := pyIn "CHECK".data text
        programming_mode := pyIn "PROGRAM".data text
        system_fault := pyIn "FAULT".data text
        zone_bypassed := pyIn "BYPASS".data text
        numeric_code := none
        mask := none
        beeps := none
        cursor_location := none
        panel_type := none }

/-- parse_lrr (parser.py lines 79-87): LRRMessage(raw=data), nothing else is
extracted. -/
def parse_lrr (data : String) : Except InvalidMessageError LRRMessage :=
  .ok { raw := some data, timestamp := none, event_type := none, partition := none }

/-- One attempt of the Contact-ID regex at the head of the list: a fixed
pattern of 3 digits, comma, 1 digit, comma, 2 digits, comma, 3 digits, comma,
1 digit. -/
def takeDigits (n : Nat) (s : List Char) : Option (List Char × List Char) :=
  match n, s with
  | 0, rest => some ([], rest)
  | _ + 1, [] => none
  | n + 1, c :: rest =>
    if isDigitChar c then (takeDigits n rest).map (fun p => (c :: p.1, p.2))
    else none

/-- Consume one expected character. -/
def expectChar (c : Char) : List Char → Option (List Char)
  | [] => none
  | d :: rest => if d = c then some rest else none

/-- Match the ADEMCO CID pattern at this position. -/
def cidMatchAt (s : List Char) : Option AdemcoCIDEvent := do
  let (g1, r1) ← takeDigits 3 s
  let r2 ← expectChar ',' r1
  let (g2, r3) ← takeDigits 1 r2
  let r4 ← expectChar ',' r3
  let (g3, r5) ← takeDigits 2 r4
  let r6 ← expectChar ',' r5
  let (g4, r7) ← takeDigits 3 r6
  let r8 ← expectChar ',' r7
  let (g5, _) ← takeDigits 1 r8
  some { code := ⟨g1⟩, qualifier := ⟨g2⟩, group := ⟨g3⟩, zone := ⟨g4⟩, partition := ⟨g5⟩ }

/-- re.search of the CID pattern: leftmost match anywhere in the string. -/
def cidSearch : List Char → Option AdemcoCIDEvent
  | [] => none
  | c :: rest =>
    match cidMatchAt (c :: rest) with
    | some e => some e
    | none => cidSearch rest

/-- parse_ademco_cid (parser.py lines 90-112): re.search the five-group digit
pattern anywhere in the line; no match is an InvalidMessageError. -/
def parse_ademco_cid (data : String) : Except InvalidMessageError ADEMCOContactID :=
  match cidSearch data.data with
  | none => .error { msg := "Could not parse ADEMCO CID" }
  | some ev =>
    .ok { raw := some data, timestamp := none, event_type := none,
          partition := none, event := some ev }

/-- ExpanderMessage(data) (expander_message.py): the custom __init__ passes
data to BaseMessage.__init__ which discards it, so raw stays None; then
_parse_message splits on ':' into exactly two parts, splits the values on ','
into exactly three parts, converts all three with int(), and tags the type
from the header ('!EXP' is ZONE, '!REL' is RELAY); any ValueError and an
unknown header become InvalidMessageError. -/
def expanderMessage_ofData (data : String) : Except InvalidMessageError ExpanderMessage :=
  match splitOnChar ':' data.data with
  | [header, values] =>
    match splitOnChar ',' values with
    | [address, channel, value] =>
      match pyIntDec address, pyIntDec channel, pyIntDec value with
      | some a, some c, some v =>
        if header = "!EXP".data then
          .ok { raw := none, timestamp := none, address := some a,
                type := some ExpanderMessage.ZONE, channel := some c, value := some v }
        else if header = "!REL".data then
          .ok { raw := none, timestamp := none, address := some a,
                type := some ExpanderMessage.RELAY, channel := some c, value := some v }
        else .error { msg := "Unknown expander message header" }
      | _, _, _ => .error { msg := "Received invalid expander message" }
    | _ => .error { msg := "Received invalid expander message" }
  | _ => .error { msg := "Received invalid expander message" }

/-- Conversion used by parse_expander for each field:
int(x) if x and x.strip() else None, where a ValueError becomes the wrapped
InvalidMessageError of parse_expander. -/
def expConvert (s : List Char) : Except InvalidMessageError (Option Nat) :=
  if (! s.isEmpty) && (! (pyStrip s).isEmpty) then
    match pyIntDec s with
    | some n => .ok (some n)
    | none => .error { msg := "Failed to parse expander message" }
  else .ok none

/-- parse_expander (parser.py lines 115-142): split the body after the
five-character prefix on ',', require at least three parts, convert the three
fields, then call ExpanderMessage(raw=data, address=..., type=..., channel=...).
ExpanderMessage.__init__ has parameters (data, address, type, channel, value)
and no raw parameter, so that call raises
TypeError("unexpected keyword argument raw"), which the except block wraps
into InvalidMessageError: parse_expander can never return a message. -/
def parse_expander (data : String) : Except InvalidMessageError ExpanderMessage :=
  match splitOnChar ',' ((pyStrip data.data).drop 5) with
  | address :: msg_type :: channel :: _ =>
    match expConvert address, expConvert msg_type, expConvert channel with
    | .ok _, .ok _, .ok _ =>
      .error { msg := "Failed to parse expander message" }
    | _, _, _ => .error { msg := "Failed to parse expander message" }
  | _ => .error { msg := "Expander message format invalid" }

/-- is_bit_set from RFMessage._parse_message: value & (1 << (b - 1)) > 0. -/
def is_bit_set (value : Nat) (b : Nat) : Bool :=
  decide (0 < Nat.land value (1 <<< (b - 1)))

/-- RFMessage._parse_message (rf_message.py lines 23-43): split the raw line
on ':' into exactly two parts, split the second on ',' into exactly two parts
(serial and hex value), parse the value as hex, then derive battery (bit 2),
supervision (bit 3) and the four loop flags from bits 5, 6, 7, 8 written to
loop indices 2, 1, 3, 0; a ValueError anywhere is an InvalidMessageError. -/
def rf_parse_message (init : RFMessage) (data : String) : Except InvalidMessageError RFMessage :=
  match splitOnChar ':' data.data with
  | [_, values] =>
    match splitOnChar ',' values with
    | [serial, value_hex] =>
      match pyIntHex value_hex with
      | some v =>
        .ok { init with
              serial_number := some ⟨serial⟩
              value := some v
              battery := some (is_bit_set v 2)
              supervision := some (is_bit_set v 3)
              loop := ((((init.loop).set 2 (is_bit_set v 5)).set 1
                        (is_bit_set v 6)).set 3 (is_bit_set v 7)).set 0 (is_bit_set v 8) }
      | none => .error { msg := "Received invalid RF message" }
    | _ => .error { msg := "Received invalid RF message" }
  | _ => .error { msg := "Received invalid RF message" }

/-- RFMessage(data): the dataclass-generated __init__ sets raw=data and the
field defaults (loop is [False, False, False, False]), then __post_init__
re-parses raw when it is truthy. -/
def rfMessage_ofData (data : String) : Except InvalidMessageError RFMessage :=
  if pyTruthyStr data then
    rf_parse_message
      { raw := some data, timestamp := none, serial_number := none,
        value := none, battery := none, supervision := none,
        loop := [false, false, false, false] } data
  else
    .ok { raw := some data, timestamp := none, serial_number := none,
          value := none, battery := none, supervision := none,
          loop := [false, false, false, false] }

/-- RFMessage(raw=data, serial_number=..., loop=..., battery=...,
supervision=..., value=...): the dataclass-generated __init__ assigns the
keyword fields, then __post_init__ re-parses the truthy raw line with
RFMessage._parse_message. -/
def rfMessage_ofKwargs (data : String) (sn : List Char) (loopv : List Bool)
    (batt sup : Bool) (val : Option Nat) : Except InvalidMessageError RFMessage :=
  if pyTruthyStr data then
    rf_parse_message
      { raw := some data, timestamp := none, serial_number := some ⟨sn⟩,
        value := val, battery := some batt, supervision := some sup,
        loop := loopv } data
  else
    .ok { raw := some data, timestamp := none, serial_number := some ⟨sn⟩,
          value := val, battery := some batt, supervision := some sup,
          loop := loopv }

/-- parse_rf (parser.py lines 145-197): split the body after the prefix on
',', require at least five parts, convert loop (per-character '1' test),
battery and supervision (truthy-string test) and value
(int(value) if value and value.strip() else None, ValueError wrapped), then
build RFMessage(raw=data, ...); the dataclass __post_init__ immediately
re-parses the raw line with RFMessage._parse_message, which demands exactly
two comma-separated fields after the colon. -/
def parse_rf (data : String) : Except InvalidMessageError RFMessage :=
  match splitOnChar ',' ((pyStrip data.data).drop 5) with
  | serial_number :: loopStr :: battery :: supervision :: value :: _ =>
    if (! value.isEmpty) && (! (pyStrip value).isEmpty) then
      match pyIntDec value with
      | some n =>
        rfMessage_ofKwargs data serial_number (loopStr.map (fun c => c == '1'))
          (pyBoolFromStr battery) (pyBoolFromStr supervision) (some n)
      | none => .error { msg := "Failed to parse RF message" }
    else
      rfMessage_ofKwargs data serial_number (loopStr.map (fun c => c == '1'))
        (pyBoolFromStr battery) (pyBoolFromStr supervision) none
  | _ => .error { msg := "RF message format invalid" }

/-- AUIMessage(data) (aui_message.py): __init__ calls BaseMessage.__init__
with no argument, so raw stays None; _parse_message splits the whole line on
',', requires at least four parts, strips each extracted field, joins the tail
back with ',' for the text, and stores the whole line in value. -/
def auiMessage_ofData (data : String) : Except InvalidMessageError AUIMessage :=
  match splitOnChar ',' data.data with
  | p0 :: p1 :: p2 :: p3 :: rest =>
    .ok { raw := none
          timestamp := none
          value := some data
          aui_id := some ⟨pyStrip p0⟩
          msg_type := some ⟨pyStrip p1⟩
          line := some ⟨pyStrip p2⟩
          text := some ⟨pyStrip (List.intercalate [','] (p3 :: rest))⟩ }
  | _ => .error { msg := "Malformed AUI message" }

/-- parse_aui (parser.py lines 200-233): check the prefix, split the body
after the five-character prefix on ',' with maxsplit 4, require at least three
parts, build AUIMessage(data) (whose own parse must also succeed), then
overwrite aui_id, msg_type, line and text with the unstripped parts (text is
parts[3] when present, otherwise the empty string). -/
def parse_aui (data : String) : Except InvalidMessageError AUIMessage :=
  if ! pyStartsWith "!AUI:" data then
    .error { msg := "AUI message must start with prefix" }
  else
    match splitOnCharMax ',' 4 ((pyStrip data.data).drop 5) with
    | p0 :: p1 :: p2 :: rest =>
      match auiMessage_ofData data with
      | .error e => .error e
      | .ok m0 =>
        .ok { m0 with
              aui_id := some ⟨p0⟩
              msg_type := some ⟨p1⟩
              line := some ⟨p2⟩
              text := some ⟨rest.headD []⟩ }
    | _ => .error { msg := "AUI message format invalid" }

/-- parse_message (parser.py lines 19-48): classify by literal prefix and
delegate; a line matching no prefix is an InvalidMessageError.  There is no
branch for "!REL:", so such lines fall through to parse_panel. -/
def parse_message (data : String) : Except InvalidMessageError Message :=
  if pyStartsWith "!AUI:" data then (parse_aui data).map Message.aui
  else if pyStartsWith "!EXP:" data then (parse_expander data).map Message.expander
  else if pyStartsWith "!RFX:" data then (parse_rf data).map Message.rf
  else if pyStartsWith "!CID:" data then (parse_ademco_cid data).map Message.cid
  else if pyStartsWith "!LRR:" data then (parse_lrr data).map Message.lrr
  else if pyStartsWith "!" data then (parse_panel data).map Message.panel
  else .error { msg := "Unknown message format" }

/-- The payload passed to on_chime_changed: the Python expression
message or status. -/
inductive ChimePayload where
  | msg (m : PanelMessage)
  | status (s : Option Bool)
deriving DecidableEq

/-- One event firing (device.on_x.fire) or zone-tracker forward, in order.
The Event class (module alarmdecoder.event.event) is absent from the sources;
per spec section 4.4 a fire is one synchronous delivery, recorded here as one
emission. -/
inductive Ev where
  | onMessage (m : Message)
  | readyChanged (status : Option Bool)
  | arm (stay : Bool)
  | disarm
  | powerChanged (status : Option Bool)
  | chimeChanged (p : ChimePayload)
  | alarm (zone : Option Nat)
  | alarmRestored (zone : Option Nat)
  | bypass (status : Option Bool)
  | lowBattery (status : Option Bool)
  | fireChanged (status : Option Bool)
  | relayChanged (m : ExpanderMessage)
  | expanderMessage (m : ExpanderMessage)
  | rfxMessage (m : RFMessage)
  | lrrMessage (m : LRRMessage)
  | auiMessage (m : AUIMessage)
deriving DecidableEq

/-- The status attributes maintained on the device object by the updater
functions in status/updater.py (the underscore-prefixed attributes _ac_power,
_chime_on, _alarm_occurring, _ready, _armed_away, _armed_home, _battery,
_fire).  none models Python None. -/
structure Device where
  ac_power : Option Bool
  chime_on : Option Bool
  alarm_occurring : Option Bool
  ready : Option Bool
  armed_away : Option Bool
  armed_home : Option Bool
  battery : Option Bool
  fire : Option Bool
deriving DecidableEq

/-- A device with every status attribute still unset. -/
def deviceInit : Device :=
  { ac_power := none, chime_on := none, alarm_occurring := none, ready := none,
    armed_away := none, armed_home := none, battery := none, fire := none }

/-- Python truthiness of an attribute holding None or a bool. -/
def pyTruthy : Option Bool → Bool
  | none => false
  | some b => b

/-- update_power_status (updater.py lines 7-15): edge-triggered on
new_status != device._ac_power. -/
def update_power_status (device : Device) (message : Option PanelMessage)
    (status : Option Bool) : Device × List Ev :=
  let new_status : Option Bool :=
    match message with
    | some m => some m.ac_power
    | none => status
  if new_status ≠ device.ac_power then
    ({ device with ac_power := new_status }, [Ev.powerChanged new_status])
  else (device, [])

/-- update_chime_status (updater.py lines 18-26): edge-triggered; the fired
payload is message or status. -/
def update_chime_status (device : Device) (message : Option PanelMessage)
    (status : Option Bool) : Device × List Ev :=
  let new_status : Option Bool :=
    match message with
    | some m => some m.chime_on
    | none => status
  if new_status ≠ device.chime_on then
    ({ device with chime_on := new_status },
     [Ev.chimeChanged (match message with
                       | some m => ChimePayload.msg m
                       | none => ChimePayload.status status)])
  else (device, [])

/-- update_alarm_status (updater.py lines 29-44): fires on_alarm on a rising
edge and on_alarm_restored on a falling edge, using Python truthiness. -/
def update_alarm_status (device : Device) (message : Option PanelMessage)
    (status : Option Bool) (zone : Option Nat) : Device × List Ev :=
  let new_status : Option Bool :=
    match message with
    | some m => some m.alarm_event_occurred
    | none => status
  if pyTruthy new_status && ! pyTruthy device.alarm_occurring then
    ({ device with alarm_occurring := some true }, [Ev.alarm zone])
  else if ! pyTruthy new_status && pyTruthy device.alarm_occurring then
    ({ device with alarm_occurring := some false }, [Ev.alarmRestored zone])
  else (device, [])

/-- The arming if/elif chain of update_armed_ready_status (updater.py lines
76-92), run after the ready check on the possibly-updated decoder d1, with e1
the events already fired by the ready check. -/
def armed_chain (d1 : Device) (m : PanelMessage) (e1 : List Ev) : Device × List Ev :=
  if m.armed_away && ! pyTruthy d1.armed_away then
    ({ d1 with armed_away := some true, armed_home := some false },
     e1 ++ [Ev.arm false])
  else if m.armed_home && ! pyTruthy d1.armed_home then
    ({ d1 with armed_home := some true, armed_away := some false },
     e1 ++ [Ev.arm true])
  else if ! m.armed_away && ! m.armed_home &&
          (pyTruthy d1.armed_away || pyTruthy d1.armed_home) then
    ({ d1 with armed_away := some false, armed_home := some false },
     e1 ++ [Ev.disarm])
  else (d1, e1)

/-- update_armed_ready_status (updater.py lines 67-92): ready is
edge-triggered on inequality (updating the state and firing
on_ready_changed), then the arming chain runs on the updated state. -/
def update_armed_ready_status (decoder : Device) (message : Option PanelMessage) :
    Device × List Ev :=
  match message with
  | none => (decoder, [])
  | some m =>
    if (some m.ready) ≠ decoder.ready then
      armed_chain { decoder with ready := some m.ready } m
        [Ev.readyChanged (some m.ready)]
    else
      armed_chain decoder m []

/-- The value of _armed_away after the arming chain, as a function of the
stored flags and the message flags (used to state the chain's effect). -/
def armedAwayNew (aw ah : Option Bool) (maw mah : Bool) : Option Bool :=
  if maw && ! pyTruthy aw then some true
  else if mah && ! pyTruthy ah then some false
  else if ! maw && ! mah && (pyTruthy aw || pyTruthy ah) then some false
  else aw

/-- The value of _armed_home after the arming chain. -/
def armedHomeNew (aw ah : Option Bool) (maw mah : Bool) : Option Bool :=
  if maw && ! pyTruthy aw then some false
  else if mah && ! pyTruthy ah then some true
  else if ! maw && ! mah && (pyTruthy aw || pyTruthy ah) then some false
  else ah

/-- The value of _alarm_occurring after update_alarm_status, as a function of
the stored flag and the message flag. -/
def alarmNew (docc : Option Bool) (b : Bool) : Option Bool :=
  if b && ! pyTruthy docc then some true
  else if ! b && pyTruthy docc then some false
  else docc

/-- update_battery_status (updater.py lines 95-102): fires only when the
status is not None and differs from the stored value. -/
def update_battery_status (decoder : Device) (message : Option PanelMessage)
    (status : Option Bool) : Device × List Ev :=
  let status : Option Bool :=
    match message with
    | some m => some m.battery_low
    | none => status
  if status.isSome && decide (status ≠ decoder.battery) then
    ({ decoder with battery := status }, [Ev.lowBattery status])
  else (decoder, [])

/-- update_fire_status (updater.py lines 105-113). -/
def update_fire_status (decoder : Device) (message : Option PanelMessage)
    (status : Option Bool) : Device × List Ev :=
  let status : Option Bool :=
    match message with
    | some m => some m.fire_alarm
    | none => status
  if status.isSome && decide (status ≠ decoder.fire) then
    ({ decoder with fire := status }, [Ev.fireChanged status])
  else (decoder, [])

/-- update_zone_bypass_status (updater.py lines 130-139): derives new_status,
logs a warning when zone is None and an info line otherwise, and then fires
device.on_bypass.fire(device, new_status) unconditionally — there is no
comparison with a stored value and no skip on a missing zone.  It never
raises; the zone argument only selects the log line. -/
def update_zone_bypass_status (device : Device) (message : Option PanelMessage)
    (status : Option Bool) (zone : Option Nat) : Device × List Ev :=
  let new_status : Option Bool :=
    match message with
    | some m => some m.zone_bypassed
    | none => status
  let _ := zone  -- only chooses between the warning and the info log line
  (device, [Ev.bypass new_status])

/-- AlarmDecoder._update_internal_states (decoder.py lines 497-515), for a
PanelMessage: the isinstance(message, BaseMessage) branch runs the seven
status updaters, each via _delegate_update (which absorbs exceptions; these
model functions are total for a PanelMessage), in source order: armed/ready
first, then power, chime, alarm, zone bypass, battery, fire.  The trailing
update_zone_tracker call forwards the message to the Zonetracker class, which
is absent from the sources and drives only zone_fault/zone_restore, none of
the status fields modelled here. -/
def update_internal_states_panel (d : Device) (m : PanelMessage) : Device × List Ev :=
  let r1 := update_armed_ready_status d (some m)
  let r2 := update_power_status r1.1 (some m) none
  let r3 := update_chime_status r2.1 (some m) none
  let r4 := update_alarm_status r3.1 (some m) none none
  let r5 := update_zone_bypass_status r4.1 (some m) none none
  let r6 := update_battery_status r5.1 (some m) none
  let r7 := update_fire_status r6.1 (some m) none
  (r7.1, r1.2 ++ r2.2 ++ r3.2 ++ r4.2 ++ r5.2 ++ r6.2 ++ r7.2)

/-- AlarmDecoder._handle_keypad_message (decoder.py lines 414-432): builds
msg = BaseMessage(data) — whose constructor discards data — and immediately
evaluates self._internal_address_mask & msg.mask; BaseMessage has no mask
attribute, so the lookup raises AttributeError before any state update or
event fire. -/
def handle_keypad_message (d : Device) (data : String) :
    List Ev × Except AttributeErr Device :=
  let msg := baseMessage_init (some data)
  match baseMessage_mask msg with
  | .error e => ([], .error e)
  | .ok _ => ([], .ok d)  -- unreachable: the mask lookup always raises

/-- AlarmDecoder._handle_message (decoder.py lines 388-412): parse the line,
fire on_message, then dispatch on the concrete message type.  The surrounding
try block catches only InvalidMessageError (every decode failure), which is
logged and absorbed; any other exception — in particular the AttributeError
from _handle_keypad_message — escapes.  The expander and rf branches are
unreachable because parse_expander and parse_rf always fail; they are kept
for shape (their handlers re-parse data with the class constructors and fire
the mid-level event).  A ContactID message is an LRRMessage subclass, so it
dispatches to _handle_lrr, which builds a fresh LRRMessage(data). -/
def handle_message (d : Device) (data : String) :
    List Ev × Except AttributeErr Device :=
  match parse_message data with
  | .error _ => ([], .ok d)
  | .ok msg =>
    let evs0 := [Ev.onMessage msg]
    match msg with
    | .panel _ =>
      match handle_keypad_message d data with
      | (evs1, r) => (evs0 ++ evs1, r)
    | .expander _ =>
      match expanderMessage_ofData data with
      | .error _ => (evs0, .ok d)
      | .ok m2 => (evs0 ++ [Ev.expanderMessage m2], .ok d)
    | .rf _ =>
      match rfMessage_ofData data with
      | .error _ => (evs0, .ok d)
      | .ok m2 => (evs0 ++ [Ev.rfxMessage m2], .ok d)
    | .lrr _ =>
      (evs0 ++ [Ev.lrrMessage { raw := some data, timestamp := none,
                                event_type := none, partition := none }], .ok d)
    | .cid _ =>
      (evs0 ++ [Ev.lrrMessage { raw := some data, timestamp := none,
                                event_type := none, partition := none }], .ok d)
    | .aui _ =>
      match auiMessage_ofData data with
      | .error _ => (evs0, .ok d)
      | .ok m2 => (evs0 ++ [Ev.auiMessage m2], .ok d)

/-- The PanelMessage decoded from "!READY STAY CHIME BAT". -/
def pmC1 : PanelMessage :=
  { raw := some "!READY STAY CHIME BAT", timestamp := none,
    text := some "READY STAY CHIME BAT",
    alarm_event_occurred := false, alarm_sounding := false, ready := true,
    armed_away := false, armed_home := true, chime_on := true, bypass := false,
    ac_power := true, battery_low := true, fire_alarm := false,
    check_zone := false, programming_mode := false, system_fault := false,
    zone_bypassed := false, numeric_code := none, mask := none, beeps := none,
    cursor_location := none, panel_type := none }

/-- The PanelMessage decoded from "!REL:12,1,01" (no token matches, so every
flag is false and ac_power defaults true). -/
def pmRel : PanelMessage :=
  { raw := some "!REL:12,1,01", timestamp := none, text := some "REL:12,1,01",
    alarm_event_occurred := false, alarm_sounding := false, ready := false,
    armed_away := false, armed_home := false, chime_on := false, bypass := false,
    ac_power := true, battery_low := false, fire_alarm := false,
    check_zone := false, programming_mode := false, system_fault := false,
    zone_bypassed := false, numeric_code := none, mask := none, beeps := none,
    cursor_location := none, panel_type := none }

/-- A panel message asserting a zone bypass with no zone identifier attached. -/
def pmBypass : PanelMessage :=
  { raw := none, timestamp := none, text := none,
    alarm_event_occurred := false, alarm_sounding := false, ready := false,
    armed_away := false, armed_home := false, chime_on := false, bypass := true,
    ac_power := true, battery_low := false, fire_alarm := false,
    check_zone := false, programming_mode := false, system_fault := false,
    zone_bypassed := true, numeric_code := none, mask := none, beeps := none,
    cursor_location := none, panel_type := none }

/-- The AUIMessage decoded from "!AUI:012345,80,1,Hello". -/
def auiC9 : AUIMessage :=
  { raw := none, timestamp := none, value := some "!AUI:012345,80,1,Hello",
    aui_id := some "012345", msg_type := some "80", line := some "1",
    text := some "Hello" }

/-- The RFMessage produced by RFMessage("!RFX:0102532,F6"), whose value 0xF6 =
246 has exactly bits 2, 3, 5, 6, 7, 8 set. -/
def rfC3 : RFMessage :=
  { raw := some "!RFX:0102532,F6", timestamp := none,
    serial_number := some "0102532", value := some 246,
    battery := some true, supervision := some true,
    loop := [true, true, true, true] }

/-- C1: for the input line "!READY STAY CHIME BAT", decoding yields a
PanelMessage with ready, chime_on, battery_low and armed_home true and
armed_away false (confirming the decode half of the claim), but processing
the line through the pipeline does not fire ready_changed, chime_changed,
low_battery or armed: AlarmDecoder._handle_keypad_message builds
BaseMessage(data) and reads its nonexistent mask attribute, so an
AttributeError escapes after the on_message fire and before any status
updater runs. -/
theorem panel_ready_stay_chime_bat_pipeline :
    (parse_message "!READY STAY CHIME BAT" = .ok (Message.panel pmC1)
      ∧ pmC1.ready = true ∧ pmC1.chime_on = true ∧ pmC1.battery_low = true
      ∧ pmC1.armed_home = true ∧ pmC1.armed_away = false)
    ∧ handle_message deviceInit "!READY STAY CHIME BAT"
        = ([Ev.onMessage (Message.panel pmC1)], .error { attr := "mask" }) := by
  decide

/-- C5: decoding "!EXP:18,0,00" does not succeed: parse_expander passes the
keyword argument raw to ExpanderMessage.__init__, which has no such
parameter, so every call raises TypeError, wrapped into InvalidMessageError.
The class's own parser ExpanderMessage._parse_message would produce
address=18, type=ZONE, channel=0, value=0 for this line, matching the
claimed values, but it is never reached from the decoder entry point. -/
theorem expander_decode_fails_example :
    parse_expander "!EXP:18,0,00" = .error { msg := "Failed to parse expander message" }
    ∧ parse_message "!EXP:18,0,00" = .error { msg := "Failed to parse expander message" }
    ∧ expanderMessage_ofData "!EXP:18,0,00"
        = .ok { raw := none, timestamp := none, address := some 18,
                type := some ExpanderMessage.ZONE, channel := some 0, value := some 0 } := by
  decide

/-- C6: an "!RFX:" line with the five documented comma-separated fields never
decodes.  On the parser's own doc example "!RFX:00000001,01,AA,00,C" the
decimal int() conversion of the fifth field fails; on an all-numeric line
"!RFX:1,2,3,4,5" the conversions succeed but RFMessage.__post_init__
re-parses the raw line and demands exactly two comma-separated fields after
the colon, so it fails as well. -/
theorem rf_decode_fails_examples :
    parse_rf "!RFX:00000001,01,AA,00,C" = .error { msg := "Failed to parse RF message" }
    ∧ parse_rf "!RFX:1,2,3,4,5" = .error { msg := "Received invalid RF message" }
    ∧ parse_message "!RFX:00000001,01,AA,00,C"
        = .error { msg := "Failed to parse RF message" } := by
  decide

/-- C7: parse_message has no "!REL:" branch, so a well-formed relay line
falls through to parse_panel and decodes as a PanelMessage, even though
ExpanderMessage._parse_message recognizes the !REL header and would tag it
RELAY. -/
theorem rel_line_decodes_as_panel :
    parse_message "!REL:12,1,01" = .ok (Message.panel pmRel)
    ∧ expanderMessage_ofData "!REL:12,1,01"
        = .ok { raw := none, timestamp := none, address := some 12,
                type := some ExpanderMessage.RELAY, channel := some 1, value := some 1 } := by
  decide

/-- C10: BaseMessage.__init__ discards its data argument (its body is pass),
so for every input string the constructed message has raw = None and
timestamp = None; in particular the BaseMessage(data) built inside
AlarmDecoder._handle_keypad_message does not carry the line. -/
theorem base_message_init_discards_data (s : String) :
    baseMessage_init (some s) = { raw := none, timestamp := none } := rfl

/-- C4: a line that fails to decode is absorbed inside
AlarmDecoder._handle_message — parse_message raises only
InvalidMessageError, which the handler catches and logs — so the state is
unchanged, no event fires and neither the aggregator nor the zone tracker is
invoked. -/
theorem unparseable_line_absorbed (d : Device) (data : String)
    (e : InvalidMessageError) (h : parse_message data = .error e) :
    handle_message d data = ([], .ok d) := by
  unfold handle_message
  rw [h]

/-- Witness for C4 at the concrete line "UNKNOWN". -/
theorem unparseable_line_absorbed_witness :
    handle_message deviceInit "UNKNOWN" = ([], .ok deviceInit) :=
  unparseable_line_absorbed deviceInit "UNKNOWN"
    { msg := "Unknown message format" } (by decide)

/-- C8 (amended): update_zone_bypass_status with zone=None does not raise —
it is a total function of its inputs — and logs a warning, but it still fires
exactly one on_bypass event carrying the derived status (the payload never
includes a zone); it does not skip. -/
theorem zone_bypass_fires_without_zone (d : Device) (message : Option PanelMessage)
    (status : Option Bool) :
    update_zone_bypass_status d message status none
      = (d, [Ev.bypass (match message with
                        | some m => some m.zone_bypassed
                        | none => status)]) := rfl

/-- Counterexample for C8 as stated: with no zone available the updater still
fires a bypass event. -/
theorem zone_bypass_missing_zone_event :
    (update_zone_bypass_status deviceInit (some pmBypass) none none).2
      = [Ev.bypass (some true)] := by
  decide

/-- Counterexample for C2 as stated: applying the same PanelMessage twice in
a row still fires an event on the second application — the bypass updater
fires unconditionally. -/
theorem second_identical_message_fires_bypass :
    (update_internal_states_panel
        (update_internal_states_panel deviceInit pmC1).1 pmC1).2
      = [Ev.bypass (some false)] := by
  decide

/-- C3: for every RF message parsed by RFMessage._parse_message, battery is
bit 2 of the value, supervision is bit 3, and the loop flags are bits 5, 6,
7, 8 mapped to indices 2, 1, 3, 0 (so the list reads [bit8, bit6, bit5,
bit7]); in particular, when the parsed value is 246 — bits set exactly at
positions 2, 3, 5, 6, 7, 8 — battery, supervision and all four loops are
true, leaving no other loop or flag position set. -/
theorem rf_loop_bit_mapping (data : String) (msg : RFMessage)
    (h : rfMessage_ofData data = .ok msg) (v : Nat) (hv : msg.value = some v) :
    (msg.battery = some (is_bit_set v 2) ∧ msg.supervision = some (is_bit_set v 3)
      ∧ msg.loop = [is_bit_set v 8, is_bit_set v 6, is_bit_set v 5, is_bit_set v 7])
    ∧ (v = 246 → msg.battery = some true ∧ msg.supervision = some true
        ∧ msg.loop = [true, true, true, true]) := by
  unfold rfMessage_ofData at h
  split at h
  · unfold rf_parse_message at h
    repeat' split at h
    all_goals try exact Except.noConfusion h
    cases h
    have hv' := Option.some.inj hv
    subst hv'
    refine ⟨⟨rfl, rfl, rfl⟩, ?_⟩
    intro h246
    subst h246
    exact ⟨rfl, rfl, rfl⟩
  · cases h
    exact Option.noConfusion hv

/-- Witness for C3 at the line "!RFX:0102532,F6" (value 0xF6 = 246). -/
theorem rf_loop_bit_mapping_witness :
    (rfC3.battery = some (is_bit_set 246 2) ∧ rfC3.supervision = some (is_bit_set 246 3)
      ∧ rfC3.loop = [is_bit_set 246 8, is_bit_set 246 6, is_bit_set 246 5, is_bit_set 246 7])
    ∧ (246 = 246 → rfC3.battery = some true ∧ rfC3.supervision = some true
        ∧ rfC3.loop = [true, true, true, true]) :=
  rf_loop_bit_mapping "!RFX:0102532,F6" rfC3 (by decide) 246 (by decide)

/-- AUIMessage._parse_message never touches raw or timestamp: on success they
keep the constructor defaults None. -/
theorem auiMessage_ofData_raw (data : String) (m : AUIMessage)
    (h : auiMessage_ofData data = .ok m) : m.raw = none ∧ m.timestamp = none := by
  unfold auiMessage_ofData at h
  repeat' split at h
  all_goals try exact Except.noConfusion h
  cases h
  exact ⟨rfl, rfl⟩

/-- parse_aui only overwrites the aui fields of the AUIMessage(data) it
built, so a successful result still has raw = None and timestamp = None. -/
theorem parse_aui_raw (data : String) (m : AUIMessage)
    (h : parse_aui data = .ok m) : m.raw = none ∧ m.timestamp = none := by
  unfold parse_aui at h
  split at h
  · exact Except.noConfusion h
  · split at h
    · rename_i p0 p1 p2 rest
      split at h
      · exact Except.noConfusion h
      · rename_i m0 hm0
        cases h
        simpa using auiMessage_ofData_raw data m0 hm0
    · exact Except.noConfusion h

/-- RFMessage._parse_message never touches raw or timestamp. -/
theorem rf_parse_message_raw (init : RFMessage) (data : String) (m : RFMessage)
    (h : rf_parse_message init data = .ok m) :
    m.raw = init.raw ∧ m.timestamp = init.timestamp := by
  unfold rf_parse_message at h
  repeat' split at h
  all_goals try exact Except.noConfusion h
  cases h
  exact ⟨rfl, rfl⟩

/-- A successful RFMessage(raw=data, ...) keyword construction carries the
raw line and no timestamp. -/
theorem rfMessage_ofKwargs_raw (data : String) (sn : List Char) (loopv : List Bool)
    (batt sup : Bool) (val : Option Nat) (m : RFMessage)
    (h : rfMessage_ofKwargs data sn loopv batt sup val = .ok m) :
    m.raw = some data ∧ m.timestamp = none := by
  unfold rfMessage_ofKwargs at h
  split at h
  · simpa using rf_parse_message_raw _ data m h
  · cases h
    exact ⟨rfl, rfl⟩

/-- A successful parse_rf result carries the raw line and no timestamp. -/
theorem parse_rf_raw (data : String) (m : RFMessage)
    (h : parse_rf data = .ok m) : m.raw = some data ∧ m.timestamp = none := by
  unfold parse_rf at h
  split at h
  · split at h
    · split at h
      · exact rfMessage_ofKwargs_raw data _ _ _ _ _ m h
      · exact Except.noConfusion h
    · exact rfMessage_ofKwargs_raw data _ _ _ _ _ m h
  · exact Except.noConfusion h

/-- parse_expander can never succeed: every branch, including the one where
all field conversions succeed, ends in the wrapped TypeError from the raw=
keyword argument. -/
theorem parse_expander_never_ok (data : String) (m : ExpanderMessage)
    (h : parse_expander data = .ok m) : False := by
  unfold parse_expander at h
  repeat' split at h
  all_goals exact Except.noConfusion h

/-- C9 (amended): every successfully decoded message has timestamp = None
rather than a capture timestamp; PanelMessage, LRRMessage, ADEMCOContactID
and RFMessage carry the raw line in raw, but a decoded AUIMessage has
raw = None (its constructor discards the line), and the expander variant is
never produced at all. -/
theorem decoded_raw_timestamp (data : String) (msg : Message)
    (h : parse_message data = .ok msg) :
    (match msg with
     | .panel m => m.raw = some data ∧ m.timestamp = none
     | .expander _ => False
     | .rf m => m.raw = some data ∧ m.timestamp = none
     | .lrr m => m.raw = some data ∧ m.timestamp = none
     | .cid m => m.raw = some data ∧ m.timestamp = none
     | .aui m => m.raw = none ∧ m.timestamp = none) := by
  unfold parse_message at h
  split_ifs at h
  · -- AUI branch
    cases haui : parse_aui data with
    | error e => rw [haui] at h; exact Except.noConfusion h
    | ok a =>
      rw [haui] at h
      cases h
      simpa using parse_aui_raw data a haui
  · -- expander branch
    cases hexp : parse_expander data with
    | error e => rw [hexp] at h; exact Except.noConfusion h
    | ok a => exact absurd hexp (fun hh => parse_expander_never_ok data a hh)
  · -- rf branch
    cases hrf : parse_rf data with
    | error e => rw [hrf] at h; exact Except.noConfusion h
    | ok a =>
      rw [hrf] at h
      cases h
      simpa using parse_rf_raw data a hrf
  · -- cid branch
    unfold parse_ademco_cid at h
    split at h
    · exact Except.noConfusion h
    · cases h
      exact ⟨rfl, rfl⟩
  · -- lrr branch
    unfold parse_lrr at h
    cases h
    exact ⟨rfl, rfl⟩
  · -- panel branch
    unfold parse_panel at h
    cases h
    exact ⟨rfl, rfl⟩

/-- Witness for C9 (amended) at the line "!LRR:MockEvent". -/
theorem decoded_raw_timestamp_witness :
    ({ raw := some "!LRR:MockEvent", timestamp := none, event_type := none,
       partition := none } : LRRMessage).raw = some "!LRR:MockEvent"
    ∧ ({ raw := some "!LRR:MockEvent", timestamp := none, event_type := none,
         partition := none } : LRRMessage).timestamp = none :=
  decoded_raw_timestamp "!LRR:MockEvent"
    (Message.lrr { raw := some "!LRR:MockEvent", timestamp := none,
                   event_type := none, partition := none }) (by decide)

/-- Counterexample for C9 as stated: the line "!AUI:012345,80,1,Hello"
decodes successfully, yet the resulting message carries neither the raw line
nor a capture timestamp. -/
theorem decoded_aui_lacks_raw_timestamp :
    parse_message "!AUI:012345,80,1,Hello" = .ok (Message.aui auiC9)
    ∧ auiC9.raw = none ∧ auiC9.timestamp = none := by
  decide

/-- pyTruthy of a stored bool. -/
theorem pyTruthy_some (b : Bool) : pyTruthy (some b) = b := rfl

/-- After the arming chain, the armed flags are armedAwayNew/armedHomeNew of
the previous flags. -/
theorem armed_chain_fst (d1 : Device) (m : PanelMessage) (e1 : List Ev) :
    (armed_chain d1 m e1).1
      = { d1 with
          armed_away := armedAwayNew d1.armed_away d1.armed_home m.armed_away m.armed_home,
          armed_home := armedHomeNew d1.armed_away d1.armed_home m.armed_away m.armed_home } := by
  unfold armed_chain armedAwayNew armedHomeNew
  split_ifs <;> rfl

/-- After update_armed_ready_status, ready holds the message value and the
armed flags follow the arming chain. -/
theorem update_armed_ready_status_fst (d : Device) (m : PanelMessage) :
    (update_armed_ready_status d (some m)).1
      = { d with
          ready := some m.ready
          armed_away := armedAwayNew d.armed_away d.armed_home m.armed_away m.armed_home
          armed_home := armedHomeNew d.armed_away d.armed_home m.armed_away m.armed_home } := by
  simp only [update_armed_ready_status]
  by_cases h0 : (some m.ready : Option Bool) ≠ d.ready
  · rw [if_pos h0, armed_chain_fst]
  · rw [if_neg h0, armed_chain_fst]
    rw [not_ne_iff] at h0
    rw [h0]

/-- After update_power_status with a message, _ac_power holds the message
value. -/
theorem update_power_status_fst (d : Device) (m : PanelMessage) :
    (update_power_status d (some m) none).1 = { d with ac_power := some m.ac_power } := by
  simp only [update_power_status]
  split_ifs with h
  · rfl
  · rw [not_ne_iff] at h
    rw [h]

/-- After update_chime_status with a message, _chime_on holds the message
value. -/
theorem update_chime_status_fst (d : Device) (m : PanelMessage) :
    (update_chime_status d (some m) none).1 = { d with chime_on := some m.chime_on } := by
  simp only [update_chime_status]
  split_ifs with h
  · rfl
  · rw [not_ne_iff] at h
    rw [h]

/-- After update_alarm_status with a message, _alarm_occurring is alarmNew of
the stored flag and the message flag. -/
theorem update_alarm_status_fst (d : Device) (m : PanelMessage) :
    (update_alarm_status d (some m) none none).1
      = { d with alarm_occurring := alarmNew d.alarm_occurring m.alarm_event_occurred } := by
  simp only [update_alarm_status, alarmNew, pyTruthy_some]
  split_ifs <;> rfl

/-- update_zone_bypass_status never changes the device state. -/
theorem update_zone_bypass_status_fst (d : Device) (message : Option PanelMessage)
    (status : Option Bool) (zone : Option Nat) :
    (update_zone_bypass_status d message status zone).1 = d := rfl

/-- After update_battery_status with a message, _battery holds the message
value. -/
theorem update_battery_status_fst (d : Device) (m : PanelMessage) :
    (update_battery_status d (some m) none).1 = { d with battery := some m.battery_low } := by
  simp only [update_battery_status]
  split_ifs with h
  · rfl
  · have h' : (some m.battery_low : Option Bool) = d.battery := by
      by_contra hne
      exact h (by simp [hne])
    rw [h']

/-- After update_fire_status with a message, _fire holds the message value. -/
theorem update_fire_status_fst (d : Device) (m : PanelMessage) :
    (update_fire_status d (some m) none).1 = { d with fire := some m.fire_alarm } := by
  simp only [update_fire_status]
  split_ifs with h
  · rfl
  · have h' : (some m.fire_alarm : Option Bool) = d.fire := by
      by_contra hne
      exact h (by simp [hne])
    rw [h']

/-- The panel branch of _update_internal_states leaves every tracked status
attribute holding the message-derived value. -/
theorem update_internal_states_panel_fst (d : Device) (m : PanelMessage) :
    (update_internal_states_panel d m).1
      = { d with
          ready := some m.ready
          armed_away := armedAwayNew d.armed_away d.armed_home m.armed_away m.armed_home
          armed_home := armedHomeNew d.armed_away d.armed_home m.armed_away m.armed_home
          ac_power := some m.ac_power
          chime_on := some m.chime_on
          alarm_occurring := alarmNew d.alarm_occurring m.alarm_event_occurred
          battery := some m.battery_low
          fire := some m.fire_alarm } := by
  simp only [update_internal_states_panel, update_armed_ready_status_fst,
             update_power_status_fst, update_chime_status_fst,
             update_alarm_status_fst, update_zone_bypass_status_fst,
             update_battery_status_fst, update_fire_status_fst]

/-- A message asserting armed_away arms away (or leaves the armed flag set). -/
theorem armedNew_away (aw ah : Option Bool) :
    pyTruthy (armedAwayNew aw ah true false) = true := by
  by_cases h : pyTruthy aw = true <;> simp [armedAwayNew, pyTruthy_some, h]

/-- A message asserting armed_home arms home (or leaves the flag set). -/
theorem armedNew_home (aw ah : Option Bool) :
    pyTruthy (armedHomeNew aw ah false true) = true := by
  by_cases h : pyTruthy ah = true <;> simp [armedHomeNew, pyTruthy_some, h]

/-- A message asserting neither armed flag leaves both flags non-truthy. -/
theorem armedNew_disarm (aw ah : Option Bool) :
    pyTruthy (armedAwayNew aw ah false false) = false
    ∧ pyTruthy (armedHomeNew aw ah false false) = false := by
  by_cases ha : pyTruthy aw = true <;> by_cases hh : pyTruthy ah = true <;>
    simp [armedAwayNew, armedHomeNew, pyTruthy_some, ha, hh]

/-- alarmNew leaves a flag whose truthiness equals the message flag. -/
theorem pyTruthy_alarmNew (docc : Option Bool) (b : Bool) :
    pyTruthy (alarmNew docc b) = b := by
  cases b <;> by_cases h : pyTruthy docc = true <;> simp [alarmNew, pyTruthy_some, h]

/-- The arming chain is quiet and leaves the state alone when the stored
flags already reflect the message flags. -/
theorem armed_chain_snd_quiet (d1 : Device) (m : PanelMessage) (e1 : List Ev)
    (hnb : ¬(m.armed_away = true ∧ m.armed_home = true))
    (h1 : m.armed_away = true → pyTruthy d1.armed_away = true)
    (h2 : m.armed_away = false → m.armed_home = true → pyTruthy d1.armed_home = true)
    (h3 : m.armed_away = false → m.armed_home = false →
          pyTruthy d1.armed_away = false ∧ pyTruthy d1.armed_home = false) :
    armed_chain d1 m e1 = (d1, e1) := by
  cases haw : m.armed_away <;> cases hah : m.armed_home
  · simp [armed_chain, haw, hah, (h3 haw hah).1, (h3 haw hah).2]
  · simp [armed_chain, haw, hah, h2 haw hah]
  · simp [armed_chain, haw, hah, h1 haw]
  · exact absurd ⟨haw, hah⟩ hnb

/-- update_armed_ready_status is quiet when ready and the armed flags already
reflect the message. -/
theorem update_armed_ready_second (d : Device) (m : PanelMessage)
    (hnb : ¬(m.armed_away = true ∧ m.armed_home = true))
    (hr : d.ready = some m.ready)
    (h1 : m.armed_away = true → pyTruthy d.armed_away = true)
    (h2 : m.armed_away = false → m.armed_home = true → pyTruthy d.armed_home = true)
    (h3 : m.armed_away = false → m.armed_home = false →
          pyTruthy d.armed_away = false ∧ pyTruthy d.armed_home = false) :
    update_armed_ready_status d (some m) = (d, []) := by
  simp only [update_armed_ready_status]
  rw [if_neg (fun hh => hh hr.symm)]
  exact armed_chain_snd_quiet d m [] hnb h1 h2 h3

/-- update_power_status is quiet when the stored value matches. -/
theorem update_power_status_second (d : Device) (m : PanelMessage)
    (h : d.ac_power = some m.ac_power) :
    update_power_status d (some m) none = (d, []) := by
  simp only [update_power_status]
  rw [if_neg (fun hh => hh h.symm)]

/-- update_chime_status is quiet when the stored value matches. -/
theorem update_chime_status_second (d : Device) (m : PanelMessage)
    (h : d.chime_on = some m.chime_on) :
    update_chime_status d (some m) none = (d, []) := by
  simp only [update_chime_status]
  rw [if_neg (fun hh => hh h.symm)]

/-- update_alarm_status is quiet when the stored flag's truthiness matches. -/
theorem update_alarm_status_second (d : Device) (m : PanelMessage)
    (h : pyTruthy d.alarm_occurring = m.alarm_event_occurred) :
    update_alarm_status d (some m) none none = (d, []) := by
  cases hb : m.alarm_event_occurred <;> rw [hb] at h <;>
    simp [update_alarm_status, pyTruthy_some, h, hb]

/-- update_battery_status is quiet when the stored value matches. -/
theorem update_battery_status_second (d : Device) (m : PanelMessage)
    (h : d.battery = some m.battery_low) :
    update_battery_status d (some m) none = (d, []) := by
  simp [update_battery_status, h]

/-- update_fire_status is quiet when the stored value matches. -/
theorem update_fire_status_second (d : Device) (m : PanelMessage)
    (h : d.fire = some m.fire_alarm) :
    update_fire_status d (some m) none = (d, []) := by
  simp [update_fire_status, h]

/-- update_zone_bypass_status on the panel path always fires exactly the
bypass event. -/
theorem update_zone_bypass_status_panel (d : Device) (m : PanelMessage) :
    update_zone_bypass_status d (some m) none none
      = (d, [Ev.bypass (some m.zone_bypassed)]) := rfl

/-- On a device whose tracked attributes already reflect the message, the
panel update pipeline changes nothing and fires only the unconditional
bypass event. -/
theorem panel_second_app (E : Device) (m : PanelMessage)
    (hnb : ¬(m.armed_away = true ∧ m.armed_home = true))
    (hr : E.ready = some m.ready)
    (h1 : m.armed_away = true → pyTruthy E.armed_away = true)
    (h2 : m.armed_away = false → m.armed_home = true → pyTruthy E.armed_home = true)
    (h3 : m.armed_away = false → m.armed_home = false →
          pyTruthy E.armed_away = false ∧ pyTruthy E.armed_home = false)
    (hp : E.ac_power = some m.ac_power) (hc : E.chime_on = some m.chime_on)
    (ha : pyTruthy E.alarm_occurring = m.alarm_event_occurred)
    (hb : E.battery = some m.battery_low) (hf : E.fire = some m.fire_alarm) :
    update_internal_states_panel E m = (E, [Ev.bypass (some m.zone_bypassed)]) := by
  have s1 := update_armed_ready_second E m hnb hr h1 h2 h3
  have s2 := update_power_status_second E m hp
  have s3 := update_chime_status_second E m hc
  have s4 := update_alarm_status_second E m ha
  have s6 := update_battery_status_second E m hb
  have s7 := update_fire_status_second E m hf
  simp [update_internal_states_panel, s1, s2, s3, s4, s6, s7,
        update_zone_bypass_status_panel]

/-- C2 (amended): for two consecutive identical PanelMessages that do not
assert armed_away and armed_home simultaneously, the second application of
the status updaters changes no state and fires no edge-triggered event —
power, chime, alarm, battery, fire and armed/ready are all silently absorbed
— but the zone-bypass updater still fires its on_bypass event, which it does
unconditionally on every message. -/
theorem panel_updates_edge_triggered_except_bypass (d : Device) (m : PanelMessage)
    (hnb : ¬(m.armed_away = true ∧ m.armed_home = true)) :
    update_internal_states_panel (update_internal_states_panel d m).1 m
      = ((update_internal_states_panel d m).1, [Ev.bypass (some m.zone_bypassed)]) := by
  rw [update_internal_states_panel_fst]
  refine panel_second_app _ m hnb rfl ?_ ?_ ?_ rfl rfl
    (pyTruthy_alarmNew d.alarm_occurring m.alarm_event_occurred) rfl rfl
  · intro haw
    have hah : m.armed_home = false := by
      cases hh : m.armed_home
      · rfl
      · exact absurd ⟨haw, hh⟩ hnb
    rw [haw, hah]
    exact armedNew_away d.armed_away d.armed_home
  · intro haw hah
    rw [haw, hah]
    exact armedNew_home d.armed_away d.armed_home
  · intro haw hah
    rw [haw, hah]
    exact armedNew_disarm d.armed_away d.armed_home

/-- Witness for C2 (amended) at the message decoded from
"!READY STAY CHIME BAT" applied twice to a fresh device. -/
theorem panel_updates_edge_triggered_witness :
    update_internal_states_panel (update_internal_states_panel deviceInit pmC1).1 pmC1
      = ((update_internal_states_panel deviceInit pmC1).1,
         [Ev.bypass (some pmC1.zone_bypassed)]) :=
  panel_updates_edge_triggered_except_bypass deviceInit pmC1 (by decide)
